import Mathlib

/-!
Verification of the Network-Stats dashboard component (src/src/App.jsx).

The file shallowly embeds the two stateful mechanisms of the component:

* the stats cache manager (`loadCachedData`, `saveToCache`, `fetchStats`,
  lines 24-121 of App.jsx), with `localStorage` modelled as a `Store`
  record, the network as an explicit `FetchResult` argument and wall-clock
  time as an explicit `now : Int` (milliseconds);

* the per-card count-up animator (`StatCard`'s effect, lines 123-217),
  modelled as a step function on a `CardState` driven by `CardEvent`s
  (effect re-run on a prop change, the start-delay timer firing, an
  animation frame firing, and the unmount cleanup).

JavaScript numbers are modelled as `Int` for the stored counters and
timestamps and as `ℚ` for the easing arithmetic; `Math.floor` is `Int.floor`.
Exceptions caught by the component's `try`/`catch` blocks are modelled by
making the corresponding functions total, with the possible outcomes of the
throwing operations (JSON parse, `localStorage.setItem`, `fetch`) passed in
as explicit arguments.
-/

/-- The four-counter payload returned by the dashboard-stats endpoint and
held in the component's `stats` state (App.jsx lines 5-10). -/
structure Snapshot where
  total_users : Int
  total_providers : Int
  total_active_providers : Int
  total_queries_processed : Int
deriving DecidableEq

/-- The zero-valued default snapshot installed by `useState` (lines 5-10). -/
def initialStats : Snapshot :=
  ⟨0, 0, 0, 0⟩

/-- Content of the `dashboard_stats` localStorage slot: either a string that
`JSON.parse` turns into a snapshot, or a string on which `JSON.parse`
throws (caught at line 41).  A read of the slot that itself throws is
observationally the same as `corrupt`, since the whole read is inside the
same `try`. -/
inductive StoredStats where
  | valid (snap : Snapshot)
  | corrupt
deriving DecidableEq

/-- Content of the `dashboard_last_updated` slot: either a string that
parses to a date (its epoch milliseconds), or one yielding `Invalid Date`,
for which every `>` comparison at line 35 is false. -/
inductive StoredDate where
  | valid (t : Int)
  | invalid
deriving DecidableEq

/-- The two localStorage slots used by the component (lines 18-21). -/
structure Store where
  dashboardStats : Option StoredStats
  dashboardLastUpdated : Option StoredDate
deriving DecidableEq

/-- The component state touched by the cache manager: `stats`, `loading`,
`lastUpdated` and `error` (lines 5-13).  The error message text is
irrelevant to the claims, so `error` is a flag (`setError(null)` clears it,
`setError(msg)` sets it). -/
structure DashState where
  stats : Snapshot
  loading : Bool
  lastUpdated : Int
  error : Bool
deriving DecidableEq

/-- Component state right after mount: zero counters, not loading, no
error; `lastUpdated` is `new Date()` at mount time (line 12). -/
def initialDash (mountTime : Int) : DashState :=
  ⟨initialStats, false, mountTime, false⟩

/-- `loadCachedData` (lines 24-45).  Reads both slots; if both are present,
the stats parse, the date is valid and the entry is younger than ten
minutes (`lastUpdatedDate > tenMinutesAgo`, line 35, i.e.
`now - 600000 < t`), it installs the cached snapshot and timestamp and
returns `true`; in every other case (absent slot, parse throw caught at
line 41, invalid date, stale entry) it leaves the state untouched and
returns `false`. -/
def loadCachedData (now : Int) (store : Store) (d : DashState) : DashState × Bool :=
  match store.dashboardStats, store.dashboardLastUpdated with
  | some (.valid snap), some (.valid t) =>
      if now - 600000 < t then
        ({ d with stats := snap, lastUpdated := t }, true)
      else
        (d, false)
  | some (.valid _), some .invalid => (d, false)
  | some .corrupt, _ => (d, false)
  | none, _ => (d, false)
  | _, none => (d, false)

/-- The fresh cache entry visible to `loadCachedData`, if any: the parsed
snapshot and its timestamp when both slots are readable and the entry is
under ten minutes old. -/
def freshCachedEntry (now : Int) (store : Store) : Option (Snapshot × Int) :=
  match store.dashboardStats, store.dashboardLastUpdated with
  | some (.valid snap), some (.valid t) =>
      if now - 600000 < t then some (snap, t) else none
  | _, _ => none

/-- Outcome of the two `localStorage.setItem` calls in `saveToCache`
(lines 48-55): both succeed, the first throws (nothing written), or the
second throws (stats slot written, timestamp slot not).  Either throw is
caught at line 52. -/
inductive SaveOutcome where
  | ok
  | failFirst
  | failSecond
deriving DecidableEq

/-- `saveToCache` (lines 48-55): writes the snapshot and the timestamp,
swallowing any storage exception. -/
def saveToCache (data : Snapshot) (now : Int) (save : SaveOutcome) (store : Store) : Store :=
  match save with
  | .ok => ⟨some (.valid data), some (.valid now)⟩
  | .failFirst => store
  | .failSecond => { store with dashboardStats := some (.valid data) }

/-- Outcome of the `fetch` at line 71: a 2xx response with a parseable
body, a 2xx response whose `response.json()` throws (parse error), a
non-2xx status (line 87 throws), or a network-level rejection. -/
inductive FetchResult where
  | ok (data : Snapshot)
  | okBadBody
  | httpError
  | networkError
deriving DecidableEq

/-- Whether the fetch outcome reaches the `catch` block at line 89. -/
def FetchResult.failed : FetchResult → Bool
  | .ok _ => false
  | _ => true

/-- `fetchStats` (lines 58-101).  `mountedStart` is `mountedRef.current` at
call time (line 59); `mountedEnd` is its value when the awaited fetch
completes (lines 80, 91, 97).  The third component of the result counts
outbound network requests performed by this call.

Control flow, as in the source: bail out if unmounted; set
`loading := true`, `error := none`; unless `skipCache`, serve a fresh cache
entry with no network traffic; otherwise perform the single fetch.  On a
2xx parseable body (and still mounted) install the data, stamp
`lastUpdated := now`, persist via `saveToCache` and clear `loading`; on
any failure (and still mounted) set the error flag, re-run
`loadCachedData` as fallback, and clear `loading`. -/
def fetchStats (skipCache mountedStart mountedEnd : Bool) (now : Int)
    (store : Store) (result : FetchResult) (save : SaveOutcome)
    (d : DashState) : DashState × Store × Nat :=
  if mountedStart = false then (d, store, 0)
  else
    let d1 : DashState := { d with loading := true, error := false }
    if skipCache = false ∧ (loadCachedData now store d1).2 = true then
      ({ (loadCachedData now store d1).1 with loading := false }, store, 0)
    else
      match result with
      | .ok data =>
          if mountedEnd then
            ({ d1 with stats := data, lastUpdated := now, loading := false },
              saveToCache data now save store, 1)
          else
            (d1, store, 1)
      | _ =>
          if mountedEnd then
            ({ (loadCachedData now store { d1 with error := true }).1 with
                loading := false }, store, 1)
          else
            (d1, store, 1)

/-- The dashboard lifecycle flags owned by the mount effect (lines
103-121): the `mountedRef` flag and whether the 5-minute interval is
registered. -/
structure DashLifecycle where
  mounted : Bool
  intervalActive : Bool
deriving DecidableEq

/-- The mount effect's cleanup (lines 115-120): flips `mountedRef.current`
to `false` and clears the auto-refresh interval. -/
def unmountDash (_l : DashLifecycle) : DashLifecycle :=
  ⟨false, false⟩

/-- The values captured by the `animate` closure created in
`startAnimation` (lines 155-165): `startValue`, `targetValue` and
`startTime` (`Date.now()` at creation, taken before the start delay). -/
structure AnimClosure where
  startValue : Int
  targetValue : Int
  startTime : Int
deriving DecidableEq

/-- Per-card component state: `displayValue` and `isAnimating` (lines
124-125), the pending animation frame held in `animationRef` (line 126),
the pending start-delay timer created at line 193 (its fire time and the
closure it will run; the source discards the timer id, so it can never be
cancelled), and the two refs `previousValueRef` and `hasInitializedRef`
(lines 128-129). -/
structure CardState where
  displayValue : Int
  isAnimating : Bool
  pendingFrame : Option AnimClosure
  pendingTimeout : Option (Int × AnimClosure)
  previousValue : Int
  hasInitialized : Bool
deriving DecidableEq

/-- A card's state as mounted (lines 124-129): display 0, not animating,
nothing scheduled, baseline 0, uninitialized. -/
def initCard : CardState :=
  ⟨0, false, none, none, 0, false⟩

/-- `progress` as computed at lines 173-174: `elapsed / duration` clamped
above at 1, with `duration = 1500` (line 164). -/
def animProgress (c : AnimClosure) (now : Int) : ℚ :=
  min (((now - c.startTime : Int) : ℚ) / 1500) 1

/-- The cubic ease-out of line 177. -/
def easeOutCubic (p : ℚ) : ℚ :=
  1 - (1 - p) ^ 3

/-- `currentValue` of line 178: `startValue + difference * easeOutCubic`
with `difference = targetValue - startValue` (line 157). -/
def currentValue (c : AnimClosure) (now : Int) : ℚ :=
  (c.startValue : ℚ) + ((c.targetValue : ℚ) - (c.startValue : ℚ)) * easeOutCubic (animProgress c now)

/-- The `StatCard` value-effect (lines 131-208), with the cleanup of the
previous effect instance (lines 202-207, `cancelAnimationFrame`) folded in
front of the body, as the framework runs it on every change of `value`;
hence `pendingFrame := none` in every branch.  The body: if the value is 0
or equals the `previousValueRef` baseline, only the (unreachable on states
arising from `initCard`) first-initialization write happens (lines
133-140); the `clearInterval` at line 144 acts on an already-cancelled
ref and is a no-op; if `isAnimating`, return without starting anything
(line 149); otherwise `startAnimation` (lines 151-198) captures
`startValue` (baseline if initialized, else 0), bails out when the
difference is zero, and otherwise marks the card animating and schedules
the start-delay timer with `startTime = now`. -/
def statCardEffect (mounted : Bool) (value delay now : Int) (s : CardState) : CardState :=
  if value = 0 ∨ value = s.previousValue then
    (if s.hasInitialized = false ∧ 0 < value then
      { s with pendingFrame := none, displayValue := value,
               hasInitialized := true, previousValue := value }
    else
      { s with pendingFrame := none })
  else if s.isAnimating = true then
    { s with pendingFrame := none }
  else if mounted = false then
    { s with pendingFrame := none }
  else if (if s.hasInitialized = true then s.previousValue else 0) = value then
    { s with pendingFrame := none, isAnimating := false }
  else
    { s with pendingFrame := none, isAnimating := true,
             pendingTimeout := some (now + delay,
               ⟨if s.hasInitialized = true then s.previousValue else 0, value, now⟩) }

/-- The start-delay timer firing (lines 193-197): consume the timer and,
if still mounted, schedule the first animation frame with the captured
closure. -/
def delayTimeoutFire (mounted : Bool) (s : CardState) : CardState :=
  match s.pendingTimeout with
  | none => s
  | some (_, c) =>
      if mounted = true then
        { s with pendingTimeout := none, pendingFrame := some c }
      else
        { s with pendingTimeout := none }

/-- One animation frame (`animate`, lines 167-190) firing at wall-clock
time `now`: the pending frame is consumed; if unmounted, only
`isAnimating` is cleared (line 169); if `progress >= 1` the display value
written at line 180 is overwritten by the exact target (line 183), the
animation finishes and the target becomes the new baseline (lines
183-186); otherwise the eased value is displayed and the next frame is
scheduled with the same closure (line 188). -/
def animate (mounted : Bool) (now : Int) (s : CardState) : CardState :=
  match s.pendingFrame with
  | none => s
  | some c =>
      if mounted = false then
        { s with pendingFrame := none, isAnimating := false }
      else if 1 ≤ animProgress c now then
        { s with pendingFrame := none, displayValue := c.targetValue,
                 isAnimating := false, hasInitialized := true,
                 previousValue := c.targetValue }
      else
        { s with pendingFrame := some c, displayValue := ⌊currentValue c now⌋ }

/-- The card-level events delivered by the host framework: an effect
re-run after the `value` prop changed (carrying the `mountedRef` flag, the
new value, the card's delay and the current time), the start-delay timer
firing, an animation frame firing, and the unmount cleanup (lines 202-207
and 211-217), which cancels any pending animation frame. -/
inductive CardEvent where
  | effect (mounted : Bool) (value delay now : Int)
  | delayTimer (mounted : Bool)
  | frame (mounted : Bool) (now : Int)
  | unmountCleanup
deriving DecidableEq

/-- Dispatch one card event. -/
def cardStep : CardEvent → CardState → CardState
  | .effect m v δ now, s => statCardEffect m v δ now s
  | .delayTimer m, s => delayTimeoutFire m s
  | .frame m now, s => animate m now s
  | .unmountCleanup, s => { s with pendingFrame := none }

/-- Run a sequence of card events from a state. -/
def runTrace (evs : List CardEvent) (s : CardState) : CardState :=
  evs.foldl (fun acc e => cardStep e acc) s

/-- Events that can still occur after the owning view is unmounted: timer
and frame callbacks with the mounted flag down, and the cleanup itself;
the framework never re-runs the value-effect of an unmounted card. -/
def isPostUnmount : CardEvent → Bool
  | .effect _ _ _ _ => false
  | .delayTimer m => !m
  | .frame m _ => !m
  | .unmountCleanup => true

/-- States whose `previousValueRef` can be nonzero only after
`hasInitializedRef` was raised; both writes to the baseline (lines 137 and
186) also raise the flag, so every state reachable from `initCard`
satisfies this. -/
def CardInv (s : CardState) : Prop :=
  s.previousValue ≠ 0 → s.hasInitialized = true

/-! ### Supporting lemmas -/

theorem loadCachedData_eq (now : Int) (store : Store) (d : DashState) :
    loadCachedData now store d =
      (match freshCachedEntry now store with
       | some (snap, t) => ({ d with stats := snap, lastUpdated := t }, true)
       | none => (d, false)) := by
  unfold loadCachedData freshCachedEntry
  rcases store with ⟨ss, sd⟩
  rcases ss with _ | (snap | _) <;> rcases sd with _ | (t | _) <;>
    first
      | rfl
      | (by_cases h : now - 600000 < t <;> simp [h])

theorem animProgress_nonneg (c : AnimClosure) (now : Int) (h : c.startTime ≤ now) :
    0 ≤ animProgress c now := by
  refine le_min (div_nonneg ?_ (by norm_num)) zero_le_one
  exact_mod_cast Int.sub_nonneg.mpr h

theorem animProgress_le_one (c : AnimClosure) (now : Int) :
    animProgress c now ≤ 1 := by
  unfold animProgress
  exact min_le_right _ _

theorem animProgress_one_iff (c : AnimClosure) (now : Int) :
    1 ≤ animProgress c now ↔ 1500 ≤ now - c.startTime := by
  unfold animProgress
  rw [le_min_iff, one_le_div (by norm_num : (0 : ℚ) < 1500)]
  constructor
  · rintro ⟨h, -⟩
    exact_mod_cast h
  · intro h
    exact ⟨by exact_mod_cast h, le_refl 1⟩

theorem easeOutCubic_nonneg (p : ℚ) (h0 : 0 ≤ p) (h1 : p ≤ 1) :
    0 ≤ easeOutCubic p := by
  unfold easeOutCubic
  have h2 : (1 - p) ^ 3 ≤ 1 ^ 3 := pow_le_pow_left₀ (by linarith) (by linarith) 3
  have h3 : (1 : ℚ) ^ 3 = 1 := one_pow 3
  linarith

theorem easeOutCubic_le_one (p : ℚ) (_h0 : 0 ≤ p) (h1 : p ≤ 1) :
    easeOutCubic p ≤ 1 := by
  unfold easeOutCubic
  have h2 : 0 ≤ (1 - p) ^ 3 := pow_nonneg (by linarith) 3
  linarith

theorem floor_interp_lower (a b : ℤ) (t : ℚ) (h0 : 0 ≤ t) (h1 : t ≤ 1) :
    min a b ≤ ⌊(a : ℚ) + ((b : ℚ) - (a : ℚ)) * t⌋ := by
  rw [Int.le_floor]
  rcases le_total a b with hab | hab
  · rw [min_eq_left hab]
    have hab1 : (a : ℚ) ≤ (b : ℚ) := by exact_mod_cast hab
    nlinarith
  · rw [min_eq_right hab]
    have hab1 : (b : ℚ) ≤ (a : ℚ) := by exact_mod_cast hab
    nlinarith

theorem floor_interp_upper (a b : ℤ) (t : ℚ) (h0 : 0 ≤ t) (h1 : t ≤ 1) :
    ⌊(a : ℚ) + ((b : ℚ) - (a : ℚ)) * t⌋ ≤ max a b := by
  have hx : (a : ℚ) + ((b : ℚ) - (a : ℚ)) * t ≤ ((max a b : ℤ) : ℚ) := by
    rcases le_total a b with hab | hab
    · rw [max_eq_right hab]
      have hab1 : (a : ℚ) ≤ (b : ℚ) := by exact_mod_cast hab
      nlinarith
    · rw [max_eq_left hab]
      have hab1 : (b : ℚ) ≤ (a : ℚ) := by exact_mod_cast hab
      nlinarith
  calc ⌊(a : ℚ) + ((b : ℚ) - (a : ℚ)) * t⌋ ≤ ⌊((max a b : ℤ) : ℚ)⌋ := Int.floor_le_floor hx
    _ = max a b := Int.floor_intCast _

/-- Both baseline writes (lines 137 and 186) also raise
`hasInitializedRef`, and nothing lowers it, so `CardInv` is preserved by
every event; together with `CardInv initCard` this makes the
first-initialization sub-branch of lines 134-138 unreachable. -/
theorem cardInv_statCardEffect (m : Bool) (v δ now : Int) (s : CardState) (h : CardInv s) :
    CardInv (statCardEffect m v δ now s) := by
  unfold statCardEffect CardInv at *
  split_ifs <;> intro hp <;> first | rfl | exact h hp

theorem cardInv_delayTimeoutFire (m : Bool) (s : CardState) (h : CardInv s) :
    CardInv (delayTimeoutFire m s) := by
  unfold delayTimeoutFire
  cases ht : s.pendingTimeout with
  | none => exact h
  | some p =>
    obtain ⟨ft, c⟩ := p
    dsimp only
    split_ifs <;> exact h

theorem cardInv_animate (m : Bool) (now : Int) (s : CardState) (h : CardInv s) :
    CardInv (animate m now s) := by
  unfold animate
  cases hf : s.pendingFrame with
  | none => exact h
  | some c =>
    dsimp only
    split_ifs
    · exact h
    · intro hp
      rfl
    · exact h

theorem cardInv_step (e : CardEvent) (s : CardState) (h : CardInv s) :
    CardInv (cardStep e s) := by
  cases e with
  | effect m v δ now => exact cardInv_statCardEffect m v δ now s h
  | delayTimer m => exact cardInv_delayTimeoutFire m s h
  | frame m now => exact cardInv_animate m now s h
  | unmountCleanup => exact h

theorem cardInv_init : CardInv initCard := by
  intro h
  exact absurd rfl h

/-! ### Claims about the cache manager -/

/-- C2: for every cached entry whose age is strictly less than 10 minutes,
a non-forced refresh (`fetchStats` with `skipCache = false`) performs no
network request and the resulting displayed snapshot is the cached
snapshot, unchanged (with its cached timestamp installed and the error
flag clear). -/
theorem fetchStats_fresh_cache_no_network (now t : Int) (snap : Snapshot) (store : Store)
    (d : DashState) (res : FetchResult) (save : SaveOutcome)
    (hs : store.dashboardStats = some (.valid snap))
    (ht : store.dashboardLastUpdated = some (.valid t))
    (hage : now - t < 600000) :
    fetchStats false true true now store res save d = (⟨snap, false, t, false⟩, store, 0) := by
  have hlt : now - 600000 < t := by omega
  have hentry : freshCachedEntry now store = some (snap, t) := by
    simp [freshCachedEntry, hs, ht, hlt]
  unfold fetchStats
  simp only [loadCachedData_eq, hentry]
  rfl

/-- C2 witness: a concrete store holding a 100 ms old entry, refreshed
without forcing at `now = 200`. -/
theorem fetchStats_fresh_cache_no_network_witness :
    fetchStats false true true 200 ⟨some (.valid ⟨1, 2, 3, 4⟩), some (.valid 100)⟩
        .networkError .ok (initialDash 0) =
      (⟨⟨1, 2, 3, 4⟩, false, 100, false⟩,
        ⟨some (.valid ⟨1, 2, 3, 4⟩), some (.valid 100)⟩, 0) :=
  fetchStats_fresh_cache_no_network 200 100 ⟨1, 2, 3, 4⟩ _ _ _ _ rfl rfl (by decide)

/-- C5: a refresh performs exactly one outbound network request whenever
it is forced (`skipCache = true`) or the cached entry is stale or absent;
in particular a forced refresh always contacts the network. -/
theorem fetchStats_forced_or_stale_one_network (sc : Bool) (now : Int) (store : Store)
    (d : DashState) (res : FetchResult) (save : SaveOutcome)
    (h : sc = true ∨ freshCachedEntry now store = none) :
    (fetchStats sc true true now store res save d).2.2 = 1 := by
  unfold fetchStats
  rcases h with h | h
  · subst h
    cases res <;> simp
  · simp only [loadCachedData_eq, h]
    cases res <;> simp

/-- C5 witness: a forced refresh over a fresh cache still issues one
request, and a non-forced refresh over an empty store issues one. -/
theorem fetchStats_forced_or_stale_one_network_witness :
    (fetchStats true true true 200 ⟨some (.valid ⟨1, 2, 3, 4⟩), some (.valid 100)⟩
        .httpError .ok (initialDash 0)).2.2 = 1 ∧
    (fetchStats false true true 0 ⟨none, none⟩ .networkError .ok (initialDash 0)).2.2 = 1 :=
  ⟨fetchStats_forced_or_stale_one_network true 200 _ _ _ _ (Or.inl rfl),
    fetchStats_forced_or_stale_one_network false 0 ⟨none, none⟩ _ _ _ (Or.inr rfl)⟩

/-- C1 counterexample: a fetch that fails over a cache entry that exists
but is exactly 10 minutes old (timestamp 0, `now = 600000`).  The claim
says the snapshot shown afterwards equals the cached snapshot regardless
of its age; the code's fallback re-applies the 10-minute freshness check,
rejects the stale entry, and keeps showing the zero-valued default. -/
theorem fetchStats_failure_stale_counterexample :
    (⟨some (.valid ⟨1200, 34, 29, 58210⟩), some (.valid 0)⟩ : Store).dashboardStats =
      some (.valid ⟨1200, 34, 29, 58210⟩) ∧
    (fetchStats false true true 600000 ⟨some (.valid ⟨1200, 34, 29, 58210⟩), some (.valid 0)⟩
        .networkError .ok (initialDash 0)).1.stats = initialStats ∧
    ¬ (fetchStats false true true 600000 ⟨some (.valid ⟨1200, 34, 29, 58210⟩), some (.valid 0)⟩
        .networkError .ok (initialDash 0)).1.stats = ⟨1200, 34, 29, 58210⟩ := by
  refine ⟨rfl, by decide, by decide⟩

/-- C1 amended: on every refresh that actually fetches and fails, the
persisted entry is not updated and the failure is surfaced; the fallback
re-runs `loadCachedData`, which applies the same 10-minute freshness
check, so the snapshot shown afterwards is the cached snapshot only when
that entry is fresh, and otherwise the previously displayed snapshot (the
zero-valued default if nothing was ever shown). -/
theorem fetchStats_failure_fallback (sc : Bool) (now : Int) (store : Store)
    (d : DashState) (res : FetchResult) (save : SaveOutcome)
    (hpath : sc = true ∨ freshCachedEntry now store = none)
    (hfail : res.failed = true) :
    (fetchStats sc true true now store res save d).2.1 = store ∧
    (fetchStats sc true true now store res save d).1.stats =
      ((freshCachedEntry now store).map Prod.fst).getD d.stats ∧
    (fetchStats sc true true now store res save d).1.error = true := by
  have hfinish : ∀ dx : DashState,
      (({ (loadCachedData now store { dx with error := true }).1 with
          loading := false }, store, 1) : DashState × Store × Nat).2.1 = store ∧
      (({ (loadCachedData now store { dx with error := true }).1 with
          loading := false }, store, 1) : DashState × Store × Nat).1.stats =
        ((freshCachedEntry now store).map Prod.fst).getD dx.stats ∧
      (({ (loadCachedData now store { dx with error := true }).1 with
          loading := false }, store, 1) : DashState × Store × Nat).1.error = true := by
    intro dx
    refine ⟨rfl, ?_, ?_⟩ <;>
      · simp only [loadCachedData_eq]
        cases hc : freshCachedEntry now store with
        | none => rfl
        | some p =>
          rcases p with ⟨snap, t⟩
          rfl
  rcases hpath with h | h
  · subst h
    cases res with
    | ok data => simp [FetchResult.failed] at hfail
    | okBadBody => exact hfinish _
    | httpError => exact hfinish _
    | networkError => exact hfinish _
  · cases res with
    | ok data => simp [FetchResult.failed] at hfail
    | okBadBody => refine ⟨?_, ?_, ?_⟩ <;> simp [fetchStats, loadCachedData_eq, h]
    | httpError => refine ⟨?_, ?_, ?_⟩ <;> simp [fetchStats, loadCachedData_eq, h]
    | networkError => refine ⟨?_, ?_, ?_⟩ <;> simp [fetchStats, loadCachedData_eq, h]

/-- C1 amended witness: empty store, failed fetch — the store stays empty,
the default snapshot remains displayed, the error is surfaced. -/
theorem fetchStats_failure_fallback_witness :
    (fetchStats true true true 0 ⟨none, none⟩ .networkError .ok (initialDash 0)).2.1 =
      ⟨none, none⟩ ∧
    (fetchStats true true true 0 ⟨none, none⟩ .networkError .ok (initialDash 0)).1.stats =
      ((freshCachedEntry 0 ⟨none, none⟩).map Prod.fst).getD (initialDash 0).stats ∧
    (fetchStats true true true 0 ⟨none, none⟩ .networkError .ok (initialDash 0)).1.error = true :=
  fetchStats_failure_fallback true 0 ⟨none, none⟩ (initialDash 0) .networkError .ok
    (Or.inl rfl) rfl

/-- C9: `loadCachedData` never propagates a failure: for an absent entry,
an unparsable stats string (the modelled `JSON.parse` throw, caught at
line 41) or an invalid stored date, it reports no cached data and leaves
the component state unchanged.  The embedding is a total function: the
`try`/`catch` of lines 25-43 is modelled by the `corrupt` constructor, so
totality of this definition is exactly the no-throw guarantee. -/
theorem loadCachedData_fail_soft (now : Int) (store : Store) (d : DashState)
    (h : store.dashboardStats = none ∨ store.dashboardLastUpdated = none ∨
         store.dashboardStats = some .corrupt ∨ store.dashboardLastUpdated = some .invalid) :
    loadCachedData now store d = (d, false) := by
  rcases store with ⟨ss, sd⟩
  rcases ss with _ | (snap | _) <;> rcases sd with _ | (t | _) <;>
    first
      | rfl
      | (exfalso; rcases h with h | h | h | h <;> simp at h)

/-- C9 witness: a corrupt stats slot next to a valid timestamp is treated
as no cached data. -/
theorem loadCachedData_fail_soft_witness :
    loadCachedData 0 ⟨some .corrupt, some (.valid 0)⟩ (initialDash 0) =
      (initialDash 0, false) :=
  loadCachedData_fail_soft 0 ⟨some .corrupt, some (.valid 0)⟩ (initialDash 0)
    (Or.inr (Or.inr (Or.inl rfl)))

/-- C10: a failure while persisting after a successful fetch is silently
swallowed: whichever of the two `setItem` calls throws, the fetched
snapshot is installed as the displayed snapshot, `lastUpdated` is set to
the fetch time, no error is surfaced and loading ends. -/
theorem fetchStats_save_failure_swallowed (sc : Bool) (now : Int) (store : Store)
    (d : DashState) (data : Snapshot) (save : SaveOutcome)
    (hpath : sc = true ∨ freshCachedEntry now store = none) :
    (fetchStats sc true true now store (.ok data) save d).1 = ⟨data, false, now, false⟩ := by
  unfold fetchStats
  rcases hpath with h | h
  · subst h
    simp
  · rw [if_neg (by simp)]
    rw [if_neg (by simp [loadCachedData_eq, h])]
    rfl

/-- C10 witness: the second `setItem` throwing (stats slot written,
timestamp slot not) still yields the fetched snapshot, a clean error flag
and the new timestamp in component state. -/
theorem fetchStats_save_failure_swallowed_witness :
    (fetchStats true true true 7 ⟨none, none⟩ (.ok ⟨5, 6, 7, 8⟩) .failSecond
        (initialDash 0)).1 = ⟨⟨5, 6, 7, 8⟩, false, 7, false⟩ :=
  fetchStats_save_failure_swallowed true 7 ⟨none, none⟩ (initialDash 0) ⟨5, 6, 7, 8⟩
    .failSecond (Or.inl rfl)

/-! ### Claims about the count-up animator -/

/-- C6: whenever a frame of a running animation fires at time `now`, the
displayed value is set to
`floor(startValue + (targetValue - startValue) * (1 - (1 - min(elapsed/1500, 1))^3))`;
the snap at `progress >= 1` writes the same value, since the eased formula
then yields exactly the integer target. -/
theorem animate_display_formula (s : CardState) (c : AnimClosure) (now : Int)
    (hf : s.pendingFrame = some c) :
    (animate true now s).displayValue = ⌊currentValue c now⌋ := by
  unfold animate
  rw [hf]
  dsimp only
  rw [if_neg (by simp)]
  by_cases hge : 1 ≤ animProgress c now
  · rw [if_pos hge]
    have hp1 : animProgress c now = 1 := le_antisymm (animProgress_le_one c now) hge
    have hcv : currentValue c now = ((c.targetValue : ℤ) : ℚ) := by
      unfold currentValue easeOutCubic
      rw [hp1]
      ring
    rw [hcv, Int.floor_intCast]
  · rw [if_neg hge]

/-- C6 witness: the spec's sample point — baseline 0, target 1000,
sampling at elapsed 750 ms of the 1500 ms duration gives exactly 875. -/
theorem animate_display_formula_witness :
    (animate true 750 ⟨0, true, some ⟨0, 1000, 0⟩, none, 0, false⟩).displayValue =
      ⌊currentValue ⟨0, 1000, 0⟩ 750⌋ ∧
    ⌊currentValue ⟨0, 1000, 0⟩ 750⌋ = 875 :=
  ⟨animate_display_formula _ ⟨0, 1000, 0⟩ 750 rfl,
    by norm_num [currentValue, easeOutCubic, animProgress, min_def]⟩

/-- C7: every frame of a running animation leaves the displayed value
between the baseline `startValue` and the target, inclusive; once the
elapsed time reaches the full 1500 ms duration (`progress >= 1`) the
display is snapped exactly to the target, the animation is marked
finished, and the target becomes the new baseline for the next
transition. -/
theorem animate_bounds_and_snap (s : CardState) (c : AnimClosure) (now : Int)
    (hf : s.pendingFrame = some c) (hstart : c.startTime ≤ now) :
    (min c.startValue c.targetValue ≤ (animate true now s).displayValue ∧
      (animate true now s).displayValue ≤ max c.startValue c.targetValue) ∧
    (1500 ≤ now - c.startTime →
      (animate true now s).displayValue = c.targetValue ∧
      (animate true now s).isAnimating = false ∧
      (animate true now s).previousValue = c.targetValue ∧
      (animate true now s).hasInitialized = true) := by
  have h0 := animProgress_nonneg c now hstart
  have h1 := animProgress_le_one c now
  unfold animate
  rw [hf]
  dsimp only
  rw [if_neg (by simp)]
  by_cases hge : 1 ≤ animProgress c now
  · rw [if_pos hge]
    exact ⟨⟨min_le_right _ _, le_max_right _ _⟩, fun _ => ⟨rfl, rfl, rfl, rfl⟩⟩
  · rw [if_neg hge]
    have he0 := easeOutCubic_nonneg _ h0 h1
    have he1 := easeOutCubic_le_one _ h0 h1
    exact ⟨⟨floor_interp_lower _ _ _ he0 he1, floor_interp_upper _ _ _ he0 he1⟩,
      fun h1500 => absurd ((animProgress_one_iff c now).mpr h1500) hge⟩

/-- C7 witness: a frame fired 2000 ms into a 0-to-1000 animation is within
bounds and settles exactly at 1000 with the baseline updated. -/
theorem animate_bounds_and_snap_witness :
    (min 0 1000 ≤ (animate true 2000 ⟨0, true, some ⟨0, 1000, 0⟩, none, 0, false⟩).displayValue ∧
      (animate true 2000 ⟨0, true, some ⟨0, 1000, 0⟩, none, 0, false⟩).displayValue ≤
        max 0 1000) ∧
    (1500 ≤ 2000 - 0 →
      (animate true 2000 ⟨0, true, some ⟨0, 1000, 0⟩, none, 0, false⟩).displayValue = 1000 ∧
      (animate true 2000 ⟨0, true, some ⟨0, 1000, 0⟩, none, 0, false⟩).isAnimating = false ∧
      (animate true 2000 ⟨0, true, some ⟨0, 1000, 0⟩, none, 0, false⟩).previousValue = 1000 ∧
      (animate true 2000 ⟨0, true, some ⟨0, 1000, 0⟩, none, 0, false⟩).hasInitialized = true) := by
  have h := animate_bounds_and_snap ⟨0, true, some ⟨0, 1000, 0⟩, none, 0, false⟩ ⟨0, 1000, 0⟩
    2000 rfl (by decide)
  simpa using h

/-- C3 counterexample: a card mounts with delay 100, receives target 500
at time 0 (animation toward 500 scheduled, `isAnimating := true`), then
target 800 arrives at time 50, while the start-delay timer is still
pending.  The effect re-run cancels only the (not yet scheduled) frame and
returns early because `isAnimating` is still `true` (line 149); since the
`setTimeout` id is discarded at line 193, the original timer fires, the
original animation toward 500 runs, and the card settles at 500 — the
superseded target `t1`, not `t2 = 800` — with nothing left scheduled. -/
theorem preemption_settles_at_old_target_counterexample :
    runTrace [.effect true 500 100 0, .effect true 800 100 50,
      .delayTimer true, .frame true 1600] initCard =
      ⟨500, false, none, none, 500, true⟩ ∧
    ¬ (runTrace [.effect true 500 100 0, .effect true 800 100 50,
      .delayTimer true, .frame true 1600] initCard).displayValue = 800 := by
  have hp : (1 : ℚ) ≤ animProgress ⟨0, 500, 0⟩ 1600 := by
    rw [animProgress_one_iff]
    decide
  have h1 : cardStep (.effect true 500 100 0) initCard =
      ⟨0, true, none, some (100, ⟨0, 500, 0⟩), 0, false⟩ := by decide
  have h2 : cardStep (.effect true 800 100 50)
      (⟨0, true, none, some (100, ⟨0, 500, 0⟩), 0, false⟩ : CardState) =
      ⟨0, true, none, some (100, ⟨0, 500, 0⟩), 0, false⟩ := by decide
  have h3 : cardStep (.delayTimer true)
      (⟨0, true, none, some (100, ⟨0, 500, 0⟩), 0, false⟩ : CardState) =
      ⟨0, true, some ⟨0, 500, 0⟩, none, 0, false⟩ := by decide
  have h4 : cardStep (.frame true 1600)
      (⟨0, true, some ⟨0, 500, 0⟩, none, 0, false⟩ : CardState) =
      ⟨500, false, none, none, 500, true⟩ := by
    show animate true 1600 (⟨0, true, some ⟨0, 500, 0⟩, none, 0, false⟩ : CardState) =
      (⟨500, false, none, none, 500, true⟩ : CardState)
    unfold animate
    dsimp only
    rw [if_neg (by simp), if_pos hp]
  have hrun : runTrace [.effect true 500 100 0, .effect true 800 100 50,
      .delayTimer true, .frame true 1600] initCard =
      ⟨500, false, none, none, 500, true⟩ := by
    show cardStep (.frame true 1600) (cardStep (.delayTimer true)
      (cardStep (.effect true 800 100 50) (cardStep (.effect true 500 100 0) initCard))) = _
    rw [h1, h2, h3, h4]
  exact ⟨hrun, by rw [hrun]; decide⟩

/-- C3 amended: if a new target `t2` arrives while the card is still
marked animating, the effect cancels the pending animation frame (no
snap) but starts no fresh transition — it returns early at line 149, and
the component state is otherwise unchanged.  Consequently the display
freezes at its current value if the old animation had frames in flight
(they were cancelled and nothing reschedules them), and if only the
start-delay timer was pending, the original animation toward the old
target `t1` still runs and settles at `t1`; the settled value is not
`t2`. -/
theorem effect_preempt_no_restart (m : Bool) (v δ now : Int) (s : CardState)
    (ha : s.isAnimating = true) (h0 : ¬ v = 0) (hp : ¬ v = s.previousValue) :
    statCardEffect m v δ now s = { s with pendingFrame := none } := by
  unfold statCardEffect
  rw [if_neg (by tauto), if_pos ha]

/-- C3 amended witness: target 800 arriving on a card mid-animation
(baseline 0, frame pending) only cancels the pending frame. -/
theorem effect_preempt_no_restart_witness :
    statCardEffect true 800 100 50 ⟨250, true, some ⟨0, 500, 0⟩, none, 0, false⟩ =
      ⟨250, true, none, none, 0, false⟩ :=
  effect_preempt_no_restart true 800 100 50 ⟨250, true, some ⟨0, 500, 0⟩, none, 0, false⟩
    rfl (by decide) (by decide)

/-- C4 counterexample: a card animates from 0 to 500 and settles (display
500, baseline 500, initialized); then the target drops to 0.  The effect
takes the `value === 0` early return (lines 133-140) without calling
`setDisplayValue`, so the card keeps displaying 500 — the claim's
"displayed value is set to t immediately" fails for `t = 0`. -/
theorem trivial_target_not_displayed_counterexample :
    runTrace [.effect true 500 0 0, .delayTimer true, .frame true 1500,
      .effect true 0 0 2000] initCard = ⟨500, false, none, none, 500, true⟩ ∧
    ¬ (runTrace [.effect true 500 0 0, .delayTimer true, .frame true 1500,
      .effect true 0 0 2000] initCard).displayValue = 0 := by
  have hp : (1 : ℚ) ≤ animProgress ⟨0, 500, 0⟩ 1500 := by
    rw [animProgress_one_iff]
    decide
  have h1 : cardStep (.effect true 500 0 0) initCard =
      ⟨0, true, none, some (0, ⟨0, 500, 0⟩), 0, false⟩ := by decide
  have h2 : cardStep (.delayTimer true)
      (⟨0, true, none, some (0, ⟨0, 500, 0⟩), 0, false⟩ : CardState) =
      ⟨0, true, some ⟨0, 500, 0⟩, none, 0, false⟩ := by decide
  have h3 : cardStep (.frame true 1500)
      (⟨0, true, some ⟨0, 500, 0⟩, none, 0, false⟩ : CardState) =
      ⟨500, false, none, none, 500, true⟩ := by
    show animate true 1500 (⟨0, true, some ⟨0, 500, 0⟩, none, 0, false⟩ : CardState) =
      (⟨500, false, none, none, 500, true⟩ : CardState)
    unfold animate
    dsimp only
    rw [if_neg (by simp), if_pos hp]
  have h4 : cardStep (.effect true 0 0 2000)
      (⟨500, false, none, none, 500, true⟩ : CardState) =
      ⟨500, false, none, none, 500, true⟩ := by decide
  have hrun : runTrace [.effect true 500 0 0, .delayTimer true, .frame true 1500,
      .effect true 0 0 2000] initCard = ⟨500, false, none, none, 500, true⟩ := by
    show cardStep (.effect true 0 0 2000) (cardStep (.frame true 1500)
      (cardStep (.delayTimer true) (cardStep (.effect true 500 0 0) initCard))) = _
    rw [h1, h2, h3, h4]
  exact ⟨hrun, by rw [hrun]; decide⟩

/-- C4 amended: when the new target equals the previous baseline or
equals 0, no animation is scheduled and there are zero intermediate
frames, but the displayed value is left unchanged rather than set to the
target: apart from cancelling any pending frame, the effect's early
return (lines 133-140) writes nothing on any state whose baseline obeys
`CardInv` (which holds for every state reachable from `initCard`, by
`cardInv_init` and `cardInv_step`, making the initialization sub-branch
of lines 134-138 dead). -/
theorem effect_trivial_target_no_anim (m : Bool) (v δ now : Int) (s : CardState)
    (hinv : CardInv s) (h : v = 0 ∨ v = s.previousValue) :
    statCardEffect m v δ now s = { s with pendingFrame := none } := by
  unfold statCardEffect
  rw [if_pos h]
  have hdead : ¬ (s.hasInitialized = false ∧ 0 < v) := by
    rintro ⟨hi, hv⟩
    rcases h with h0 | hprev
    · omega
    · have hpz : s.previousValue ≠ 0 := by omega
      rw [hinv hpz] at hi
      cases hi
  rw [if_neg hdead]

/-- C4 amended witness: a settled card showing 500 receiving target 0
keeps showing 500, with nothing scheduled. -/
theorem effect_trivial_target_no_anim_witness :
    statCardEffect true 0 0 2000 ⟨500, false, none, none, 500, true⟩ =
      ⟨500, false, none, none, 500, true⟩ :=
  effect_trivial_target_no_anim true 0 0 2000 ⟨500, false, none, none, 500, true⟩
    (fun _ => rfl) (Or.inl rfl)

/-! ### Claim about deactivation (unmount) -/

/-- C8: after the view is deactivated no asynchronous continuation mutates
component state.  Four conjuncts: (1) a fetch whose completion finds the
mounted flag down changes nothing beyond the synchronous call-time writes
(`loading := true`, `error := none`) — in particular no stats, timestamp,
store or error write happens, whatever the network returned; (2) the
unmount cleanup lowers the mounted flag and cancels the 5-minute
interval; (3) the card unmount cleanup cancels any pending animation
frame; (4) from any card state with no pending frame, no sequence of
post-unmount events (timer/frame callbacks with the flag down, further
cleanups) ever changes the displayed value or schedules a frame: the
timer callback checks the flag before scheduling (line 194) and a frame
never fires once cancelled. -/
theorem unmount_guards :
    (∀ (now : Int) (store : Store) (res : FetchResult) (save : SaveOutcome) (d : DashState),
        fetchStats true true false now store res save d =
          ({ d with loading := true, error := false }, store, 1)) ∧
    (∀ l : DashLifecycle, (unmountDash l).mounted = false ∧ (unmountDash l).intervalActive = false) ∧
    (∀ s : CardState, (cardStep .unmountCleanup s).pendingFrame = none) ∧
    (∀ (evs : List CardEvent) (s : CardState),
        (∀ e ∈ evs, isPostUnmount e = true) → s.pendingFrame = none →
        (runTrace evs s).displayValue = s.displayValue ∧
        (runTrace evs s).pendingFrame = none) := by
  refine ⟨?_, fun l => ⟨rfl, rfl⟩, fun s => rfl, ?_⟩
  · intro now store res save d
    cases res <;> rfl
  · intro evs
    induction evs with
    | nil => exact fun s _ h => ⟨rfl, h⟩
    | cons e tl ih =>
      intro s hall hnone
      have he : isPostUnmount e = true := hall e (List.mem_cons_self e tl)
      have htl : ∀ x ∈ tl, isPostUnmount x = true :=
        fun x hx => hall x (List.mem_cons_of_mem e hx)
      have hstep : (cardStep e s).displayValue = s.displayValue ∧
          (cardStep e s).pendingFrame = none := by
        cases e with
        | effect m v δ now => simp [isPostUnmount] at he
        | delayTimer m =>
          have hm : m = false := by simpa [isPostUnmount] using he
          subst hm
          show (delayTimeoutFire false s).displayValue = _ ∧ (delayTimeoutFire false s).pendingFrame = none
          unfold delayTimeoutFire
          cases ht : s.pendingTimeout with
          | none => exact ⟨rfl, hnone⟩
          | some p =>
            obtain ⟨ft, c⟩ := p
            exact ⟨rfl, hnone⟩
        | frame m now =>
          have hm : m = false := by simpa [isPostUnmount] using he
          subst hm
          show (animate false now s).displayValue = _ ∧ (animate false now s).pendingFrame = none
          unfold animate
          rw [hnone]
          exact ⟨rfl, hnone⟩
        | unmountCleanup => exact ⟨rfl, rfl⟩
      have hrest := ih (cardStep e s) htl hstep.2
      have hfold : runTrace (e :: tl) s = runTrace tl (cardStep e s) := rfl
      rw [hfold]
      exact ⟨hrest.1.trans hstep.1, hrest.2⟩

/-- C8 witness: a fetch completing after unmount leaves state and store
untouched; unmount cancels the interval; post-unmount timer and frame
callbacks never move a card's display. -/
theorem unmount_guards_witness :
    fetchStats true true false 3 ⟨none, none⟩ .okBadBody .ok (initialDash 0) =
      ({ initialDash 0 with loading := true, error := false }, ⟨none, none⟩, 1) ∧
    (unmountDash ⟨true, true⟩).intervalActive = false ∧
    (cardStep .unmountCleanup ⟨7, true, some ⟨0, 9, 0⟩, none, 0, false⟩).pendingFrame = none ∧
    (runTrace [.delayTimer false, .frame false 9000]
      ⟨7, true, none, some (0, ⟨0, 9, 0⟩), 0, false⟩).displayValue = 7 :=
  ⟨unmount_guards.1 3 ⟨none, none⟩ .okBadBody .ok (initialDash 0),
    (unmount_guards.2.1 ⟨true, true⟩).2,
    unmount_guards.2.2.1 ⟨7, true, some ⟨0, 9, 0⟩, none, 0, false⟩,
    (unmount_guards.2.2.2 [.delayTimer false, .frame false 9000]
      ⟨7, true, none, some (0, ⟨0, 9, 0⟩), 0, false⟩ (by decide) rfl).1⟩
